import Mathlib

/-!
Verification development for the window-automation core
(capture → template match → input injection pipeline).

The Python source is shallowly embedded: numpy images become `Img`
(dimensions plus a pixel function), floating-point scores become `ℚ`,
external collaborators (OpenCV's `matchTemplate`/`minMaxLoc`, the OS
capture call, `VkKeyScanA`, `MapVirtualKeyW`, the foreground-window
query, the wall clock) become explicit oracle parameters, and fallible
code returns `Option`/`Except`.
-/

namespace Endfield

/-! ## Data model (core/types.py) -/

/-- `core.types.Rect`: axis-aligned rectangle in window-local coordinates. -/
structure Rect where
  x : Int
  y : Int
  width : Int
  height : Int
deriving DecidableEq, Repr

/-- `Rect.right`: exclusive right edge, `x + width`. -/
def Rect.right (r : Rect) : Int := r.x + r.width

/-- `Rect.bottom`: exclusive bottom edge, `y + height`. -/
def Rect.bottom (r : Rect) : Int := r.y + r.height

/-- A raster image: height × width × channels plus a pixel function
(embedding of a `numpy.ndarray` of shape `(h, w, c)`). -/
structure Img where
  h : Nat
  w : Nat
  c : Nat
  px : Nat → Nat → Nat → Nat

/-- Effective bound of a Python slice index `i` on an axis of length `n`:
negative indices count from the end (clamped at 0), non-negative indices
are clamped at `n`. -/
def npIdx (i : Int) (n : Nat) : Nat :=
  min (if i < 0 then ((n : Int) + i).toNat else i.toNat) n

/-- Two-dimensional numpy slice `img[y:b, x:r]` (channels untouched). -/
def npSlice2d (img : Img) (x y r b : Int) : Img :=
  let y0 := npIdx y img.h
  let y1 := npIdx b img.h
  let x0 := npIdx x img.w
  let x1 := npIdx r img.w
  { h := y1 - y0, w := x1 - x0, c := img.c,
    px := fun i j k => img.px (y0 + i) (x0 + j) k }

/-- `interaction.image_matcher.crop_image`: `image[y:bottom, x:right]`. -/
def crop_image (image : Img) (region : Rect) : Img :=
  npSlice2d image region.x region.y region.right region.bottom

/-! ## Matching constants (interaction/constants.py) -/

def IMG_RATE : Nat := 0
def IMG_POSI : Nat := 1
def IMG_BOOL : Nat := 4
def IMG_BOOLRATE : Nat := 5

/-! ## vision/templates.py -/

/-- `vision.templates.Template`: named reference image with match
parameters. -/
structure Template where
  name : String
  path : String
  threshold : ℚ
  roi : Option Rect
deriving DecidableEq, Repr

/-- Whether the string ends with the path separator, mirroring the check
`os.path.join` performs on its first argument. -/
def endsWithSep (a : String) : Bool := a.toList.getLast? == some '/'

/-- `os.path.join(a, b)` for a POSIX-style separator: an absolute second
component replaces the first; otherwise the components are joined with a
single separator. -/
def osPathJoin (a b : String) : String :=
  if b.startsWith "/" then b
  else if a = "" then b
  else if endsWithSep a then a ++ b
  else a ++ "/" ++ b

/-- `vision.templates.TemplateStore`: root directory plus the registered
templates (association list; the most recent registration is first, as
`List.lookup` returns the first hit, mirroring dict overwrite). -/
structure TemplateStore where
  root_dir : String
  templates : List (String × Template)

/-- `TemplateStore.register`: build the full path with `os.path.join` and
store the descriptor, silently overwriting any previous entry. -/
def TemplateStore.register (s : TemplateStore) (name relative_path : String)
    (threshold : ℚ := 8/10) (roi : Option Rect := none) : TemplateStore :=
  let full_path := osPathJoin s.root_dir relative_path
  { s with templates :=
      (name, { name := name, path := full_path, threshold := threshold, roi := roi })
        :: s.templates }

/-- `TemplateStore.get`: return the descriptor, or `none` for the
`KeyError` raised on an unregistered name. -/
def TemplateStore.get (s : TemplateStore) (name : String) : Option Template :=
  s.templates.lookup name

/-! ## vision/matching.py -/

/-- `vision.matching.MatchResult`: score, matched rectangle and center. -/
structure MatchResult where
  score : ℚ
  rect : Rect
  center : Int × Int
deriving DecidableEq, Repr

/-- The optional ROI crop at the start of `TemplateMatcher.match`:
the slice `screen_img[y:b, x:r]` of the ROI's `to_tuple()`, or the
screen unchanged when no ROI is set. -/
def roi_cropped (screen : Img) (template : Template) : Img :=
  match template.roi with
  | some roi => npSlice2d screen roi.x roi.y roi.right roi.bottom
  | none => screen

/-- `TemplateMatcher.match` (named `matchTmpl`; `match` is a Lean
keyword).  `loadImg` embeds `store.load_image`, `mm` embeds the external
`cv2.matchTemplate` + `cv2.minMaxLoc` pair, returning the maximum score
and its location.  A screen smaller than the template in either
dimension yields `none`; a maximum score strictly below the threshold
yields `none`. -/
def TemplateMatcher.matchTmpl (loadImg : String → Img)
    (mm : Img → Img → ℚ × Nat × Nat) (screen : Img) (template : Template) :
    Option MatchResult :=
  let screen_img : Img := roi_cropped screen template
  let tmpl_img := loadImg template.path
  if screen_img.h < tmpl_img.h ∨ screen_img.w < tmpl_img.w then none
  else
    let res := mm screen_img tmpl_img
    let max_val := res.1
    let max_loc := res.2
    if max_val < template.threshold then none
    else
      let offset_x : Int := match template.roi with | some roi => roi.x | none => 0
      let offset_y : Int := match template.roi with | some roi => roi.y | none => 0
      let left : Int := (max_loc.1 : Int) + offset_x
      let top : Int := (max_loc.2 : Int) + offset_y
      let rect : Rect := { x := left, y := top, width := tmpl_img.w, height := tmpl_img.h }
      let center : Int × Int := (left + (tmpl_img.w : Int) / 2, top + (tmpl_img.h : Int) / 2)
      some { score := max_val, rect := rect, center := center }

/-! ## interaction/image_matcher.py -/

/-- Result of `match_image`, covering the two supported return modes:
`IMG_RATE` returns just a score, `IMG_POSI` a score plus a location. -/
inductive MatchOut where
  | rate (r : ℚ)
  | posi (r : ℚ) (p : Nat × Nat)
deriving DecidableEq, Repr

/-- `interaction.image_matcher.match_image` with `is_gray=False` (the
only mode its in-repo callers use).  A source image smaller than the
template in either dimension returns score `0.0` (no exception); an
unsupported return mode raises `ImageMatchError`, modelled as `.error`. -/
def match_image (mm : Img → Img → ℚ × Nat × Nat) (image template : Img)
    (return_mode : Nat) : Except Unit MatchOut :=
  if image.h < template.h ∨ image.w < template.w then
    if return_mode = IMG_RATE then .ok (.rate 0)
    else .ok (.posi 0 (0, 0))
  else
    let res := mm image template
    let matching_rate := res.1
    let max_loc := res.2
    if return_mode = IMG_RATE then .ok (.rate matching_rate)
    else if return_mode = IMG_POSI then .ok (.posi matching_rate max_loc)
    else .error ()

/-- Score carried by a `MatchOut`. -/
def MatchOut.rateOf : MatchOut → ℚ
  | .rate r => r
  | .posi r _ => r

/-! ## interaction/core.py : check_image_exists -/

/-- Result of `check_image_exists`, which returns a `bool` or a score
depending on the requested mode. -/
inductive CheckOut where
  | asBool (b : Bool)
  | asRate (r : ℚ)
deriving DecidableEq, Repr

/-- `InteractionCore.check_image_exists`, with the captured frame passed
in as `cap` (the result of `self.capture(...)`): computes the match rate
via `match_image(..., IMG_RATE)` then compares with `>=` per the
requested return mode; an unsupported mode raises `ValueError`. -/
def check_image_exists (mm : Img → Img → ℚ × Nat × Nat) (cap template : Img)
    (threshold : ℚ) (return_mode : Nat) : Except Unit CheckOut :=
  match match_image mm cap template IMG_RATE with
  | .error e => .error e
  | .ok out =>
    let matching_rate := out.rateOf
    if return_mode = IMG_BOOL then .ok (.asBool (decide (matching_rate ≥ threshold)))
    else if return_mode = IMG_BOOLRATE then
      .ok (if matching_rate ≥ threshold then .asRate matching_rate else .asBool false)
    else if return_mode = IMG_RATE then .ok (.asRate matching_rate)
    else .error ()

/-! ## interaction/input_controller.py -/

/-- Python's `str.lower()` restricted to ASCII, as used for key-name and
window-title normalization. -/
def pyLower (s : String) : String := ⟨s.data.map Char.toLower⟩

/-- The static virtual-key name table `VK_CODE` (the Python dict; its
duplicate literal keys collapse to single entries). -/
def VK_CODE : List (String × Nat) :=
  [("backspace", 0x08), ("tab", 0x09), ("clear", 0x0C), ("enter", 0x0D),
   ("shift", 0x10), ("ctrl", 0x11), ("alt", 0x12), ("pause", 0x13),
   ("caps_lock", 0x14), ("esc", 0x1B), ("spacebar", 0x20), ("space", 0x20),
   ("page_up", 0x21), ("page_down", 0x22), ("end", 0x23), ("home", 0x24),
   ("left_arrow", 0x25), ("up_arrow", 0x26), ("right_arrow", 0x27),
   ("down_arrow", 0x28), ("select", 0x29), ("print", 0x2A), ("execute", 0x2B),
   ("print_screen", 0x2C), ("ins", 0x2D), ("del", 0x2E), ("help", 0x2F),
   ("0", 0x30), ("1", 0x31), ("2", 0x32), ("3", 0x33), ("4", 0x34),
   ("5", 0x35), ("6", 0x36), ("7", 0x37), ("8", 0x38), ("9", 0x39),
   ("a", 0x41), ("b", 0x42), ("c", 0x43), ("d", 0x44), ("e", 0x45),
   ("f", 0x46), ("g", 0x47), ("h", 0x48), ("i", 0x49), ("j", 0x4A),
   ("k", 0x4B), ("l", 0x4C), ("m", 0x4D), ("n", 0x4E), ("o", 0x4F),
   ("p", 0x50), ("q", 0x51), ("r", 0x52), ("s", 0x53), ("t", 0x54),
   ("u", 0x55), ("v", 0x56), ("w", 0x57), ("x", 0x58), ("y", 0x59),
   ("z", 0x5A), ("numpad_0", 0x60), ("numpad_1", 0x61), ("numpad_2", 0x62),
   ("numpad_3", 0x63), ("numpad_4", 0x64), ("numpad_5", 0x65),
   ("numpad_6", 0x66), ("numpad_7", 0x67), ("numpad_8", 0x68),
   ("numpad_9", 0x69), ("multiply_key", 0x6A), ("add_key", 0x6B),
   ("separator_key", 0x6C), ("subtract_key", 0x6D), ("decimal_key", 0x6E),
   ("divide_key", 0x6F), ("F1", 0x70), ("F2", 0x71), ("F3", 0x72),
   ("F4", 0x73), ("F5", 0x74), ("F6", 0x75), ("F7", 0x76), ("F8", 0x77),
   ("F9", 0x78), ("F10", 0x79), ("F11", 0x7A), ("F12", 0x7B),
   ("num_lock", 0x90), ("scroll_lock", 0x91), ("left_shift", 0xA0),
   ("right_shift", 0xA1), ("left_control", 0xA2), ("right_control", 0xA3),
   ("left_menu", 0xA4), ("right_menu", 0xA5)]

/-- `InteractionNormal._get_virtual_keycode` (`vkKeyScanA` embeds the
external `VkKeyScanA` OS call, `-1` meaning failure): case-insensitive
lookup in `VK_CODE`, then a single-character fallback through
`VkKeyScanA(ord(key.lower())) & 0xFF`; `none` models the raised
`ValueError` (unsupported key). -/
def getVirtualKeycode (vkKeyScanA : Char → Int) (key : String) : Option Nat :=
  match VK_CODE.lookup (pyLower key) with
  | some code => some code
  | none =>
    if key.length = 1 then
      match (pyLower key).toList with
      | c :: _ =>
        let vk_code := vkKeyScanA c
        if vk_code ≠ -1 then some (vk_code % 256).toNat else none
      | [] => none
    else none

def WM_KEYDOWN : Nat := 0x0100
def WM_KEYUP : Nat := 0x0101

/-- A keyboard message posted to the target window
(`PostMessageW(handle, msg, wparam, lparam)`). -/
structure KeyMsg where
  msg : Nat
  wparam : Nat
  lparam : Nat
deriving DecidableEq, Repr

/-- `InteractionNormal.key_down` (`mapVk` embeds `MapVirtualKeyW`): on a
resolvable key, posts one `WM_KEYDOWN` with `lparam = (scan << 16) | 1`;
on an unresolvable key the `ValueError` is caught and logged, so the call
returns normally (`.ok`) having posted nothing. -/
def key_down (vkKeyScanA : Char → Int) (mapVk : Nat → Nat) (key : String) :
    Except String (List KeyMsg) :=
  match getVirtualKeycode vkKeyScanA key with
  | some vk_code =>
    let scan_code := mapVk vk_code
    .ok [{ msg := WM_KEYDOWN, wparam := vk_code,
           lparam := (scan_code <<< 16) ||| 1 }]
  | none => .ok []

/-- `InteractionNormal.key_up`: like `key_down`, with
`lparam = (scan << 16) | 0xC0000001`, and the same catch-and-log of the
unsupported-key `ValueError`. -/
def key_up (vkKeyScanA : Char → Int) (mapVk : Nat → Nat) (key : String) :
    Except String (List KeyMsg) :=
  match getVirtualKeycode vkKeyScanA key with
  | some vk_code =>
    let scan_code := mapVk vk_code
    .ok [{ msg := WM_KEYUP, wparam := vk_code,
           lparam := (scan_code <<< 16) ||| 0xC0000001 }]
  | none => .ok []

/-- `InteractionNormal.key_press`: posts the `WM_KEYDOWN`/`WM_KEYUP`
pair, again catching the unsupported-key `ValueError`. -/
def key_press (vkKeyScanA : Char → Int) (mapVk : Nat → Nat) (key : String) :
    Except String (List KeyMsg) :=
  match getVirtualKeycode vkKeyScanA key with
  | some vk_code =>
    let scan_code := mapVk vk_code
    .ok [{ msg := WM_KEYDOWN, wparam := vk_code,
           lparam := (scan_code <<< 16) ||| 1 },
         { msg := WM_KEYUP, wparam := vk_code,
           lparam := (scan_code <<< 16) ||| 0xC0000001 }]
  | none => .ok []

/-! ## interaction/core.py : key state, freeze/unfreeze -/

/-- Dictionary write `m[k] = v` on an association list read through
`List.lookup` (first entry wins, so prepending overwrites). -/
def setk (m : List (String × Bool)) (k : String) (v : Bool) :
    List (String × Bool) :=
  (k, v) :: m

/-- `dict.get(k, False)`. -/
def getk (m : List (String × Bool)) (k : String) : Bool :=
  (m.lookup k).getD false

/-- The key-related state of `InteractionCore`: the `_key_status`
tracking map, the `_key_freeze` snapshot map, and the physical held
state of each key as driven by the injector's `key_down`/`key_up`. -/
structure CoreKeyState where
  key_status : List (String × Bool)
  key_freeze : List (String × Bool)
  held : List (String × Bool)

/-- `InteractionCore.key_down`: injector presses the key, then
`_key_status[key] = True`. -/
def core_key_down (s : CoreKeyState) (key : String) : CoreKeyState :=
  { s with held := setk s.held key true, key_status := setk s.key_status key true }

/-- `InteractionCore.key_up`: injector releases the key, then
`_key_status[key] = False`. -/
def core_key_up (s : CoreKeyState) (key : String) : CoreKeyState :=
  { s with held := setk s.held key false, key_status := setk s.key_status key false }

/-- `InteractionCore.freeze_key`: snapshot
`_key_freeze[key] = _key_status.get(key, False)`, then drive the
injector to the requested state ('down' presses, anything else
releases); `_key_status` itself is not touched. -/
def freeze_key (s : CoreKeyState) (key : String) (state : String := "down") :
    CoreKeyState :=
  let s1 := { s with key_freeze := setk s.key_freeze key (getk s.key_status key) }
  if state = "down" then { s1 with held := setk s1.held key true }
  else { s1 with held := setk s1.held key false }

/-- `InteractionCore.unfreeze_key`: read
`_key_freeze.get(key, False)` and drive the injector back to that
state. -/
def unfreeze_key (s : CoreKeyState) (key : String) : CoreKeyState :=
  let original_state := getk s.key_freeze key
  if original_state then { s with held := setk s.held key true }
  else { s with held := setk s.held key false }

/-! ## interaction/core.py : delay -/

/-- The actual sleep duration of `InteractionCore.delay(seconds,
randomize=True)` for a given draw of `random.randint(-10, 10)`:
`seconds + draw * seconds * 0.02`. -/
def delay_randomized_actual (seconds : ℚ) (draw : Int) : ℚ :=
  seconds + (draw : ℚ) * seconds * (2 / 100)

/-! ## interaction/capture.py -/

/-- Mutable state of `WindowsCapture`: the cached frame, the timestamp
of the last successful capture, and the frame-rate timer. -/
structure CapState where
  capture_cache : Img
  last_capture_time : ℚ
  fps_timer : ℚ

/-- `WindowsCapture._check_shape` for `force_1920x1080 = True`: the
image must be exactly `(1080, 1920, 4)`. -/
def check_shape_forced (img : Img) : Bool :=
  img.h = 1080 ∧ img.w = 1920 ∧ img.c = 4

/-- Outcome of one `WindowsCapture.capture` call: the returned frame,
the updated state, and whether the OS capture path (`_get_capture`) was
invoked at all. -/
structure CaptureOutcome where
  img : Img
  state : CapState
  os_invoked : Bool

/-- The retry loop of `WindowsCapture.capture` (up to `max_retries = 3`
attempts of `_get_capture`, embedded as the oracle `osCap`, `.error`
standing for a raised exception): a well-shaped frame updates the cache
and `_last_capture_time` and is returned; a bad shape or an exception on
the last attempt raises `CaptureError`. -/
def capture_retry (osCap : Nat → Except Unit Img) (s : CapState)
    (current_time : ℚ) : Nat → Except Unit CaptureOutcome
  | 0 => .error ()
  | fuel + 1 =>
    match osCap (3 - (fuel + 1)) with
    | .ok img =>
      if check_shape_forced img then
        .ok { img := img,
              state := { capture_cache := img, last_capture_time := current_time,
                         fps_timer := s.fps_timer },
              os_invoked := true }
      else if fuel = 0 then .error ()
      else capture_retry osCap s current_time fuel
    | .error _ =>
      if fuel = 0 then .error ()
      else capture_retry osCap s current_time fuel

/-- `WindowsCapture.capture(recapture_limit)` at wall-clock time
`current_time` with `force_1920x1080 = True`: a cache hit (TTL or
frame-rate ceiling) returns a copy of the cached frame without invoking
the OS path; otherwise `_fps_timer` is set and the retry loop runs. -/
def capture (max_fps : ℚ) (osCap : Nat → Except Unit Img) (s : CapState)
    (current_time : ℚ) (recapture_limit : ℚ) : Except Unit CaptureOutcome :=
  if recapture_limit > 0 ∧ current_time - s.last_capture_time < recapture_limit then
    .ok { img := s.capture_cache, state := s, os_invoked := false }
  else if current_time - s.fps_timer < 1 / max_fps then
    .ok { img := s.capture_cache, state := s, os_invoked := false }
  else
    capture_retry osCap { s with fps_timer := current_time } current_time 3

/-! ## interaction/decorators.py : before_operation -/

/-- Whether list `a` occurs as a contiguous sublist of `b` (Python's
`in` on strings, applied to the character lists). -/
def containsSub (a b : List Char) : Bool :=
  b.tails.any (fun t => a.isPrefixOf t)

/-- The focus test of `before_operation`: some configured candidate
title, lowercased, is a substring of the lowercased foreground-window
title. -/
def is_game_window (target_titles : List String) (active_title : String) : Bool :=
  target_titles.any (fun t => containsSub (pyLower t).toList (pyLower active_title).toList)

/-- The focus check of `before_operation` over the stream of
foreground-window title queries (`title i` embeds the
`GetForegroundWindow`/`GetWindowText` pair at poll tick `i`, `.error`
standing for a raised exception).  The whole check — initial test and
wait loop — sits inside `try: ... except Exception: logger.warning(...)`,
after which the wrapped operation runs unconditionally: a focused tick
executes at that tick, an exception is caught and logged and executes
immediately with no focus verified, and only an unbroken run of
successful non-matching queries keeps blocking.  Returns the tick at
which the wrapped operation executes, or `none` if the call is still
blocked after `fuel` polls. -/
def before_operation_run (target_titles : List String)
    (title : Nat → Except Unit String) (i : Nat) : Nat → Option Nat
  | 0 => none
  | fuel + 1 =>
    match title i with
    | .error _ => some i
    | .ok t =>
      if is_game_window target_titles t then some i
      else before_operation_run target_titles title (i + 1) fuel

/-! ## vision/detectors.py : wait_for -/

/-- The polling loop of `UiDetectors.wait_for`: each element of `polls`
is one iteration — the screen grabbed by `_current_screen()` paired with
the `time.time()` value read at that iteration's timeout check.  A match
returns it at once (`.ok`); otherwise an expired deadline raises
`MatchTimeoutError` (`.error`); otherwise the loop continues.  `none`
means the modelled poll stream was exhausted with the loop still
running. -/
def wait_for (loadImg : String → Img) (mm : Img → Img → ℚ × Nat × Nat)
    (template : Template) (end_time : ℚ) :
    List (Img × ℚ) → Option (Except Unit MatchResult)
  | [] => none
  | (screen, tcheck) :: rest =>
    match TemplateMatcher.matchTmpl loadImg mm screen template with
    | some result => some (.ok result)
    | none =>
      if tcheck > end_time then some (.error ())
      else wait_for loadImg mm template end_time rest

/-! ## Theorems -/

/-- Helper: `os.path.join(a, b)` always ends in `b`. -/
theorem osPathJoin_ends_with (a b : String) : ∃ p, osPathJoin a b = p ++ b := by
  unfold osPathJoin
  split
  · exact ⟨"", rfl⟩
  · split
    · exact ⟨"", rfl⟩
    · split
      · exact ⟨a, rfl⟩
      · exact ⟨a ++ "/", rfl⟩

/-- Claim C7, counterexample: with base duration 1 second and the
admissible draw `10` of `random.randint(-10, 10)`, the jitter offset is
`0.2`, which exceeds 10% of the base duration — the claimed bound
`|actual - base| <= 0.1 * base` fails. -/
theorem C7_jitter_counterexample :
    (-10 : Int) ≤ 10 ∧ (10 : Int) ≤ 10 ∧
    ¬ (|delay_randomized_actual 1 10 - 1| ≤ (1 / 10 : ℚ) * 1) := by
  refine ⟨by norm_num, le_refl _, ?_⟩
  have h : delay_randomized_actual 1 10 - 1 = 1 / 5 := by
    norm_num [delay_randomized_actual]
  rw [h, abs_of_nonneg (by norm_num : (0 : ℚ) ≤ 1 / 5)]
  norm_num

/-- Claim C7, amended: for every non-negative base duration and every
possible draw of `random.randint(-10, 10)`, the jittered delay differs
from the base by at most 20% of the base duration (the offset is
`draw * base * 0.02` with `|draw| <= 10`). -/
theorem C7_jitter_bounded (seconds : ℚ) (hs : 0 ≤ seconds) (draw : Int)
    (hlo : -10 ≤ draw) (hhi : draw ≤ 10) :
    |delay_randomized_actual seconds draw - seconds| ≤ (2 / 10) * seconds := by
  have hd : |(draw : ℚ)| ≤ 10 := by
    rw [abs_le]
    constructor
    · exact_mod_cast hlo
    · exact_mod_cast hhi
  have h1 : delay_randomized_actual seconds draw - seconds
      = (draw : ℚ) * (seconds * (2 / 100)) := by
    unfold delay_randomized_actual; ring
  rw [h1, abs_mul]
  have h2 : |seconds * (2 / 100)| = seconds * (2 / 100) := by
    rw [abs_of_nonneg]; positivity
  rw [h2]
  have h3 : |(draw : ℚ)| * (seconds * (2 / 100)) ≤ 10 * (seconds * (2 / 100)) :=
    mul_le_mul_of_nonneg_right hd (by positivity)
  linarith

/-- Witness for C7's amended theorem at base 1 second, draw 3. -/
theorem C7_jitter_bounded_witness :
    (0 : ℚ) ≤ 1 ∧ (-10 : Int) ≤ 3 ∧ (3 : Int) ≤ 10 ∧
    |delay_randomized_actual 1 3 - 1| ≤ (2 / 10 : ℚ) * 1 :=
  ⟨by norm_num, by norm_num, by norm_num,
   C7_jitter_bounded 1 (by norm_num) 3 (by norm_num) (by norm_num)⟩

/-- Claim C9: `register` followed by `get` returns a descriptor with
exactly the registered threshold and ROI and with path
`os.path.join(root_dir, relative_path)` (which ends in the relative
path); re-registering a name silently overwrites, so `get` returns the
most recent registration; `get` on a fresh store with no registrations
returns the not-registered failure (`none`, the raised `KeyError`). -/
theorem C9_register_get :
    (∀ (s : TemplateStore) (name rel : String) (th : ℚ) (roi : Option Rect),
      (s.register name rel th roi).get name
        = some { name := name, path := osPathJoin s.root_dir rel,
                 threshold := th, roi := roi }
      ∧ ∃ p, osPathJoin s.root_dir rel = p ++ rel)
    ∧ (∀ (s : TemplateStore) (name rel1 rel2 : String) (th1 th2 : ℚ)
        (roi1 roi2 : Option Rect),
      ((s.register name rel1 th1 roi1).register name rel2 th2 roi2).get name
        = some { name := name, path := osPathJoin s.root_dir rel2,
                 threshold := th2, roi := roi2 })
    ∧ (∀ (root name : String), (TemplateStore.mk root []).get name = none) := by
  refine ⟨fun s name rel th roi => ⟨?_, osPathJoin_ends_with _ _⟩,
          fun s name rel1 rel2 th1 th2 roi1 roi2 => ?_,
          fun root name => rfl⟩
  · simp [TemplateStore.get, TemplateStore.register, List.lookup]
  · simp [TemplateStore.get, TemplateStore.register, List.lookup]

/-- Helper: writing a key into an association-list map and reading the
same key back yields the written value. -/
theorem getk_setk (m : List (String × Bool)) (k : String) (v : Bool) :
    getk (setk m k v) k = v := by
  simp [getk, setk, List.lookup]

/-- Claim C8: when the tracked `_key_status` agrees with the key's
physical held state (as it does whenever the key was only driven through
`key_down`/`key_up`), `freeze_key` snapshots that state and forces the
requested one, and a subsequent `unfreeze_key` restores exactly the
pre-freeze held/released state: a key held before the freeze ends held,
a released key ends released. -/
theorem C8_freeze_unfreeze (s : CoreKeyState) (key state : String)
    (h : getk s.key_status key = getk s.held key) :
    getk (unfreeze_key (freeze_key s key state) key).held key = getk s.held key := by
  unfold freeze_key unfreeze_key
  by_cases hst : state = "down" <;>
    by_cases hv : getk s.key_status key <;>
      simp [hst, hv, getk_setk, ← h]

/-- Witness for C8 at a state where key "w" is held (status and physical
state agree), frozen to 'down' then unfrozen. -/
theorem C8_freeze_unfreeze_witness :
    getk (CoreKeyState.mk [("w", true)] [] [("w", true)]).key_status "w"
      = getk (CoreKeyState.mk [("w", true)] [] [("w", true)]).held "w"
    ∧ getk (unfreeze_key
        (freeze_key (CoreKeyState.mk [("w", true)] [] [("w", true)]) "w" "down")
        "w").held "w"
      = getk (CoreKeyState.mk [("w", true)] [] [("w", true)]).held "w" :=
  ⟨by decide, C8_freeze_unfreeze _ "w" "down" (by decide)⟩

/-- Concrete oracle for `VkKeyScanA` that fails on every character. -/
def vkScanFail : Char → Int := fun _ => -1

/-- Concrete oracle for `MapVirtualKeyW`. -/
def mapVkZero : Nat → Nat := fun _ => 0

/-- Claim C2, counterexample: the key name "invalid" is neither in
`VK_CODE` nor a single character, so `_get_virtual_keycode` raises — but
`key_down` catches the error and returns normally having posted nothing,
instead of surfacing an `UnsupportedKey` failure to the caller as the
claim states. -/
theorem C2_counterexample :
    getVirtualKeycode vkScanFail "invalid" = none
    ∧ key_down vkScanFail mapVkZero "invalid" = .ok []
    ∧ ¬ ∃ e, key_down vkScanFail mapVkZero "invalid" = .error e := by
  refine ⟨by decide, rfl, ?_⟩
  rintro ⟨e, he⟩
  rw [show key_down vkScanFail mapVkZero "invalid" = .ok [] from rfl] at he
  exact Except.noConfusion he

/-- Claim C2, amended: for every key name that is neither in the static
virtual-key name table (case-insensitive) nor a single character
convertible to a keycode, the internal resolver `_get_virtual_keycode`
fails (raises `ValueError`/UnsupportedKey), and `key_down`, `key_up` and
`key_press` post no input event — but they catch and merely log the
error, returning normally instead of surfacing it to the caller. -/
theorem C2_unsupported_key_silent (vkKeyScanA : Char → Int) (mapVk : Nat → Nat)
    (key : String)
    (h1 : VK_CODE.lookup (pyLower key) = none)
    (h2 : key.length = 1 → ∀ c ∈ (pyLower key).toList, vkKeyScanA c = -1) :
    getVirtualKeycode vkKeyScanA key = none
    ∧ key_down vkKeyScanA mapVk key = .ok []
    ∧ key_up vkKeyScanA mapVk key = .ok []
    ∧ key_press vkKeyScanA mapVk key = .ok [] := by
  have hres : getVirtualKeycode vkKeyScanA key = none := by
    unfold getVirtualKeycode
    rw [h1]
    by_cases hlen : key.length = 1
    · simp only [hlen, if_pos]
      cases hc : (pyLower key).toList with
      | nil => rfl
      | cons c tl =>
        have := h2 hlen c (by rw [hc]; exact List.mem_cons_self c tl)
        simp [this]
    · simp [hlen]
  refine ⟨hres, ?_, ?_, ?_⟩ <;> simp [key_down, key_up, key_press, hres]

/-- Witness for C2's amended theorem at the key name "invalid" with a
failing `VkKeyScanA` oracle. -/
theorem C2_unsupported_key_silent_witness :
    VK_CODE.lookup (pyLower "invalid") = none
    ∧ (getVirtualKeycode vkScanFail "invalid" = none
      ∧ key_down vkScanFail mapVkZero "invalid" = .ok []
      ∧ key_up vkScanFail mapVkZero "invalid" = .ok []
      ∧ key_press vkScanFail mapVkZero "invalid" = .ok []) :=
  ⟨by decide,
   C2_unsupported_key_silent vkScanFail mapVkZero "invalid" (by decide)
     (fun h => absurd h (by decide))⟩

/-- Claim C1: with the (possibly ROI-cropped) frame at least as large as
the template, `TemplateMatcher.match` returns a `MatchResult` exactly
when the maximum normalized-correlation score reported by the matching
backend is greater than or equal to the template's threshold (a score
equal to the threshold matches, a score strictly below does not), and
`InteractionCore.check_image_exists` in boolean mode reports `True`
exactly when the score is greater than or equal to its threshold. -/
theorem C1_threshold_inclusive :
    (∀ (loadImg : String → Img) (mm : Img → Img → ℚ × Nat × Nat)
        (screen : Img) (t : Template),
      (loadImg t.path).h ≤ (roi_cropped screen t).h →
      (loadImg t.path).w ≤ (roi_cropped screen t).w →
      ((TemplateMatcher.matchTmpl loadImg mm screen t).isSome
        ↔ (mm (roi_cropped screen t) (loadImg t.path)).1 ≥ t.threshold))
    ∧ (∀ (mm : Img → Img → ℚ × Nat × Nat) (cap tmpl : Img) (threshold : ℚ),
      tmpl.h ≤ cap.h → tmpl.w ≤ cap.w →
      (check_image_exists mm cap tmpl threshold IMG_BOOL = .ok (.asBool true)
        ↔ (mm cap tmpl).1 ≥ threshold)) := by
  constructor
  · intro loadImg mm screen t hh hw
    unfold TemplateMatcher.matchTmpl
    have hsize : ¬ ((roi_cropped screen t).h < (loadImg t.path).h
        ∨ (roi_cropped screen t).w < (loadImg t.path).w) := by
      push_neg
      exact ⟨hh, hw⟩
    simp only [hsize, if_false]
    by_cases hlt : (mm (roi_cropped screen t) (loadImg t.path)).1 < t.threshold
    · simp [hlt, not_le.mpr hlt]
    · simp [hlt, not_lt.mp hlt, ge_iff_le]
  · intro mm cap tmpl threshold hh hw
    unfold check_image_exists match_image
    have hsize : ¬ (cap.h < tmpl.h ∨ cap.w < tmpl.w) := by
      push_neg
      exact ⟨hh, hw⟩
    simp only [hsize, if_false, if_pos rfl]
    simp [MatchOut.rateOf, IMG_BOOL]

/-- Fixture: a 2×2 3-channel frame of zeros. -/
def imgFrame : Img := ⟨2, 2, 3, fun _ _ _ => 0⟩

/-- Fixture: a 1×1 3-channel template image of zeros. -/
def imgSmall : Img := ⟨1, 1, 3, fun _ _ _ => 0⟩

/-- Fixture: a loader resolving every path to `imgSmall`. -/
def loadSmall : String → Img := fun _ => imgSmall

/-- Fixture: a loader resolving every path to `imgFrame`. -/
def loadFrame : String → Img := fun _ => imgFrame

/-- Fixture: a matching backend reporting maximum score 4/5 at (0,0). -/
def mmConst : Img → Img → ℚ × Nat × Nat := fun _ _ => (4/5, 0, 0)

/-- Fixture: a template with threshold 4/5 and no ROI. -/
def tmplC : Template := ⟨"t", "p.png", 4/5, none⟩

/-- Witness for C1 at a 2×2 frame, 1×1 template, and a backend score
exactly equal to the threshold 4/5. -/
theorem C1_threshold_inclusive_witness :
    ((TemplateMatcher.matchTmpl loadSmall mmConst imgFrame tmplC).isSome
      ↔ (mmConst (roi_cropped imgFrame tmplC) (loadSmall tmplC.path)).1
          ≥ tmplC.threshold)
    ∧ (check_image_exists mmConst imgFrame imgSmall (4/5) IMG_BOOL
        = .ok (.asBool true)
      ↔ (mmConst imgFrame imgSmall).1 ≥ (4/5 : ℚ)) :=
  ⟨C1_threshold_inclusive.1 loadSmall mmConst imgFrame tmplC
      (by decide) (by decide),
   C1_threshold_inclusive.2 mmConst imgFrame imgSmall (4/5)
      (by decide) (by decide)⟩

/-- Claim C5: when the (possibly ROI-cropped) frame is smaller than the
template in either dimension, `TemplateMatcher.match` returns `None` and
`match_image` returns the no-match score 0 (with position (0,0) in
positional mode); neither raises. -/
theorem C5_small_frame :
    (∀ (loadImg : String → Img) (mm : Img → Img → ℚ × Nat × Nat)
        (screen : Img) (t : Template),
      ((roi_cropped screen t).h < (loadImg t.path).h
        ∨ (roi_cropped screen t).w < (loadImg t.path).w) →
      TemplateMatcher.matchTmpl loadImg mm screen t = none)
    ∧ (∀ (mm : Img → Img → ℚ × Nat × Nat) (image tmpl : Img),
      (image.h < tmpl.h ∨ image.w < tmpl.w) →
      match_image mm image tmpl IMG_RATE = .ok (.rate 0)
      ∧ match_image mm image tmpl IMG_POSI = .ok (.posi 0 (0, 0))) := by
  constructor
  · intro loadImg mm screen t hsmall
    unfold TemplateMatcher.matchTmpl
    simp [hsmall]
  · intro mm image tmpl hsmall
    unfold match_image
    refine ⟨by simp [hsmall], by simp [hsmall, IMG_POSI, IMG_RATE]⟩

/-- Witness for C5 at a 1×1 frame and a 2×2 template. -/
theorem C5_small_frame_witness :
    TemplateMatcher.matchTmpl loadFrame mmConst imgSmall tmplC = none
    ∧ (match_image mmConst imgSmall imgFrame IMG_RATE = .ok (.rate 0)
      ∧ match_image mmConst imgSmall imgFrame IMG_POSI = .ok (.posi 0 (0, 0))) :=
  ⟨C5_small_frame.1 loadFrame mmConst imgSmall tmplC (by decide),
   C5_small_frame.2 mmConst imgSmall imgFrame (by decide)⟩

/-- Claim C10: cropping a frame to a rectangle with non-negative
coordinates never fails, even when the rectangle extends past the
frame's right or bottom edge: the result is the intersection of the
rectangle with the frame — its height is `min(bottom, h) - y`, its width
`min(right, w) - x` (possibly zero, i.e. empty), each at most the
requested height/width, and each retained pixel comes from the frame at
the rectangle's offset. -/
theorem C10_crop_clamps (image : Img) (region : Rect)
    (hx : 0 ≤ region.x) (hy : 0 ≤ region.y)
    (hw : 0 ≤ region.width) (hh : 0 ≤ region.height) :
    (crop_image image region).h
      = min region.bottom.toNat image.h - region.y.toNat
    ∧ (crop_image image region).w
      = min region.right.toNat image.w - region.x.toNat
    ∧ (crop_image image region).h ≤ region.height.toNat
    ∧ (crop_image image region).w ≤ region.width.toNat
    ∧ ∀ i j k, (crop_image image region).px i j k
        = image.px (min region.y.toNat image.h + i)
            (min region.x.toNat image.w + j) k := by
  have hb : ¬ (region.y + region.height < 0) := by omega
  have hr : ¬ (region.x + region.width < 0) := by omega
  have hxn : ¬ (region.x < 0) := by omega
  have hyn : ¬ (region.y < 0) := by omega
  refine ⟨?_, ?_, ?_, ?_, ?_⟩
  · simp only [crop_image, npSlice2d, npIdx, Rect.bottom, Rect.right,
      if_neg hb, if_neg hr, if_neg hxn, if_neg hyn]
    omega
  · simp only [crop_image, npSlice2d, npIdx, Rect.bottom, Rect.right,
      if_neg hb, if_neg hr, if_neg hxn, if_neg hyn]
    omega
  · simp only [crop_image, npSlice2d, npIdx, Rect.bottom, Rect.right,
      if_neg hb, if_neg hr, if_neg hxn, if_neg hyn]
    omega
  · simp only [crop_image, npSlice2d, npIdx, Rect.bottom, Rect.right,
      if_neg hb, if_neg hr, if_neg hxn, if_neg hyn]
    omega
  · intro i j k
    simp only [crop_image, npSlice2d, npIdx, Rect.bottom, Rect.right,
      if_neg hb, if_neg hr, if_neg hxn, if_neg hyn]

/-- Witness for C10: cropping the 2×2 frame to the rectangle
(1,1,5,5), which extends past both edges, yields the 1×1 intersection. -/
theorem C10_crop_clamps_witness :
    (crop_image imgFrame ⟨1, 1, 5, 5⟩).h
      = min (Rect.bottom ⟨1, 1, 5, 5⟩).toNat imgFrame.h - (1 : Int).toNat
    ∧ (crop_image imgFrame ⟨1, 1, 5, 5⟩).w
      = min (Rect.right ⟨1, 1, 5, 5⟩).toNat imgFrame.w - (1 : Int).toNat
    ∧ (crop_image imgFrame ⟨1, 1, 5, 5⟩).h ≤ (5 : Int).toNat
    ∧ (crop_image imgFrame ⟨1, 1, 5, 5⟩).w ≤ (5 : Int).toNat
    ∧ ∀ i j k, (crop_image imgFrame ⟨1, 1, 5, 5⟩).px i j k
        = imgFrame.px (min (1 : Int).toNat imgFrame.h + i)
            (min (1 : Int).toNat imgFrame.w + j) k :=
  C10_crop_clamps imgFrame ⟨1, 1, 5, 5⟩ (by norm_num) (by norm_num)
    (by norm_num) (by norm_num)

/-- Helper: every successful exit of the capture retry loop returns the
frame it has just written into the cache, stamped with the call time. -/
theorem capture_retry_ok (osCap : Nat → Except Unit Img) (s : CapState)
    (t : ℚ) :
    ∀ (fuel : Nat) (o : CaptureOutcome),
      capture_retry osCap s t fuel = .ok o →
      o.img = o.state.capture_cache ∧ o.state.last_capture_time = t := by
  intro fuel
  induction fuel with
  | zero =>
    intro o h
    simp [capture_retry] at h
  | succ n ih =>
    intro o h
    unfold capture_retry at h
    cases hc : osCap (3 - (n + 1)) with
    | ok img =>
      rw [hc] at h
      by_cases hs : check_shape_forced img
      · simp only [hs, if_true] at h
        cases h
        exact ⟨rfl, rfl⟩
      · simp only [hs, Bool.false_eq_true, if_false] at h
        by_cases hn : n = 0
        · rw [if_pos hn] at h
          exact absurd h (by simp)
        · rw [if_neg hn] at h
          exact ih o h
    | error e =>
      rw [hc] at h
      by_cases hn : n = 0
      · rw [if_pos hn] at h
        exact absurd h (by simp)
      · rw [if_neg hn] at h
        exact ih o h

/-- Helper: every successful `capture` call returns exactly the frame
held in the cache of its post-state. -/
theorem capture_ok_img_cache (max_fps : ℚ) (osCap : Nat → Except Unit Img)
    (s : CapState) (t lim : ℚ) (o : CaptureOutcome)
    (h : capture max_fps osCap s t lim = .ok o) :
    o.img = o.state.capture_cache := by
  unfold capture at h
  split at h
  · cases h; rfl
  · split at h
    · cases h; rfl
    · exact (capture_retry_ok osCap _ t 3 o h).1

/-- Helper: the TTL cache hit of `WindowsCapture.capture`. -/
theorem capture_cache_hit (max_fps : ℚ) (osCap : Nat → Except Unit Img)
    (s : CapState) (t lim : ℚ) (hpos : lim > 0)
    (hlt : t - s.last_capture_time < lim) :
    capture max_fps osCap s t lim = .ok ⟨s.capture_cache, s, false⟩ := by
  unfold capture
  rw [if_pos ⟨hpos, hlt⟩]

/-- Claim C4: with a positive TTL, a capture issued while the last
successful capture is younger than the TTL returns the cached frame
without invoking the OS capture path and without changing state; and
consequently a second capture issued while the previous capture's
timestamp is still within the TTL returns a frame pixel-identical to the
first one, whatever the first call did and whatever the OS would now
show. -/
theorem C4_capture_cache :
    (∀ (max_fps : ℚ) (osCap : Nat → Except Unit Img) (s : CapState)
        (t lim : ℚ), lim > 0 → t - s.last_capture_time < lim →
      capture max_fps osCap s t lim = .ok ⟨s.capture_cache, s, false⟩)
    ∧ (∀ (max_fps : ℚ) (osCap osCap2 : Nat → Except Unit Img) (s : CapState)
        (t1 lim : ℚ) (o1 : CaptureOutcome) (t2 : ℚ),
      capture max_fps osCap s t1 lim = .ok o1 →
      lim > 0 → t2 - o1.state.last_capture_time < lim →
      capture max_fps osCap2 o1.state t2 lim = .ok ⟨o1.img, o1.state, false⟩) := by
  refine ⟨fun max_fps osCap s t lim hpos hlt =>
      capture_cache_hit max_fps osCap s t lim hpos hlt,
    fun max_fps osCap osCap2 s t1 lim o1 t2 h1 hpos hlt2 => ?_⟩
  rw [capture_cache_hit max_fps osCap2 o1.state t2 lim hpos hlt2,
      capture_ok_img_cache max_fps osCap s t1 lim o1 h1]

/-- Fixture: a capture state caching `imgFrame`, last captured at time
10, fps timer at 0. -/
def capSC : CapState := ⟨imgFrame, 10, 0⟩

/-- Fixture: an OS capture oracle that always fails. -/
def osFail : Nat → Except Unit Img := fun _ => .error ()

/-- Witness for C4: with TTL 1/2, captures at times 10.1 and 10.2 both
hit the cache; the second returns exactly the first frame. -/
theorem C4_capture_cache_witness :
    capture 30 osFail capSC (101 / 10) (1 / 2)
      = .ok ⟨capSC.capture_cache, capSC, false⟩
    ∧ capture 30 osFail
        (CaptureOutcome.mk capSC.capture_cache capSC false).state (102 / 10) (1 / 2)
      = .ok ⟨(CaptureOutcome.mk capSC.capture_cache capSC false).img,
             (CaptureOutcome.mk capSC.capture_cache capSC false).state, false⟩ :=
  have h1 : capture 30 osFail capSC (101 / 10) (1 / 2)
      = .ok ⟨capSC.capture_cache, capSC, false⟩ :=
    C4_capture_cache.1 30 osFail capSC (101 / 10) (1 / 2) (by norm_num)
      (by norm_num [capSC])
  ⟨h1,
   C4_capture_cache.2 30 osFail osFail capSC (101 / 10) (1 / 2)
     ⟨capSC.capture_cache, capSC, false⟩ (102 / 10) h1 (by norm_num)
     (by norm_num [capSC])⟩

/-- Fixture: one configured candidate window title. -/
def titlesW : List String := ["endfield"]

/-- Fixture: a foreground-title query stream that raises on every poll
(e.g. `GetWindowText` failing). -/
def titleFail : Nat → Except Unit String := fun _ => .error ()

/-- Fixture: a foreground-title query stream that always succeeds,
focusing the target window only at tick 2. -/
def titleSeq : Nat → Except Unit String := fun n =>
  if n = 2 then .ok "Arknights: Endfield" else .ok "Other Window"

/-- Claim C3, counterexample: when the foreground-title query raises at
the very first check, `before_operation` catches the exception, logs a
warning and executes the wrapped operation immediately — at a tick where
no foreground title matched (none was even readable) — so synthetic
input is delivered without the target window being verified to hold
focus, refuting the claimed universal guarantee. -/
theorem C3_focus_check_counterexample :
    before_operation_run titlesW titleFail 0 5 = some 0
    ∧ titleFail 0 = .error ()
    ∧ ¬ ∃ t, titleFail 0 = .ok t ∧ is_game_window titlesW t = true := by
  refine ⟨rfl, rfl, ?_⟩
  rintro ⟨t, ht, -⟩
  exact Except.noConfusion ht

/-- Claim C3, amended: a guarded operation checks the foreground-window
title before executing; as long as the title queries succeed, it
executes at poll tick `j` only if the title at `j` contains a candidate
title (case-insensitive substring) and no earlier tick matched (it
polls, blocked, until the first match), and it stays blocked while
every query succeeds without matching — but an exception in the focus
check is caught and logged, and the operation then executes immediately
with no focus verified, so the never-without-focus guarantee holds only
on the exception-free path. -/
theorem C3_focus_guard_amended :
    (∀ (targets : List String) (title : Nat → Except Unit String)
        (i fuel j : Nat),
      before_operation_run targets title i fuel = some j →
      i ≤ j ∧ j < i + fuel
      ∧ (∀ m, i ≤ m → m < j →
          ∃ t, title m = .ok t ∧ is_game_window targets t = false)
      ∧ ((∃ t, title j = .ok t ∧ is_game_window targets t = true)
          ∨ title j = .error ()))
    ∧ (∀ (targets : List String) (title : Nat → Except Unit String)
        (i fuel : Nat),
      (∀ m, i ≤ m → m < i + fuel →
        ∃ t, title m = .ok t ∧ is_game_window targets t = false) →
      before_operation_run targets title i fuel = none) := by
  constructor
  · intro targets title i fuel
    induction fuel generalizing i with
    | zero =>
      intro j h
      simp [before_operation_run] at h
    | succ n ih =>
      intro j h
      unfold before_operation_run at h
      cases ht : title i with
      | error e =>
        simp only [ht, Option.some.injEq] at h
        subst h
        refine ⟨le_refl i, by omega, fun m h1 h2 => absurd h1 (by omega),
          Or.inr ?_⟩
        cases e
        exact ht
      | ok t =>
        simp only [ht] at h
        by_cases hm : is_game_window targets t = true
        · rw [if_pos hm] at h
          cases h
          exact ⟨le_refl i, by omega, fun m h1 h2 => absurd h1 (by omega),
            Or.inl ⟨t, ht, hm⟩⟩
        · rw [if_neg hm] at h
          obtain ⟨h1, h2, h3, h4⟩ := ih (i + 1) j h
          refine ⟨by omega, by omega, fun m hm1 hm2 => ?_, h4⟩
          by_cases hmi : m = i
          · subst hmi
            exact ⟨t, ht, by simpa using hm⟩
          · exact h3 m (by omega) hm2
  · intro targets title i fuel
    induction fuel generalizing i with
    | zero =>
      intro _
      rfl
    | succ n ih =>
      intro h
      unfold before_operation_run
      obtain ⟨t, ht, hfalse⟩ := h i (by omega) (by omega)
      simp only [ht, hfalse, Bool.false_eq_true, if_false]
      exact ih (i + 1) (fun m h1 h2 => h m (by omega) (by omega))

/-- Witness for C3's amended theorem: over `titleSeq` starting at tick 0
with 5 polls, the guard executes exactly at tick 2 (the first focused
tick, all queries succeeding); starting at tick 3 with 2 polls and no
focused tick, it stays blocked. -/
theorem C3_focus_guard_amended_witness :
    (0 ≤ 2 ∧ 2 < 0 + 5
      ∧ (∀ m, 0 ≤ m → m < 2 →
          ∃ t, titleSeq m = .ok t ∧ is_game_window titlesW t = false)
      ∧ ((∃ t, titleSeq 2 = .ok t ∧ is_game_window titlesW t = true)
          ∨ titleSeq 2 = .error ()))
    ∧ before_operation_run titlesW titleSeq 3 2 = none :=
  ⟨C3_focus_guard_amended.1 titlesW titleSeq 0 5 2 (by decide),
   C3_focus_guard_amended.2 titlesW titleSeq 3 2 (fun m h1 h2 => by
     have hm : m = 3 ∨ m = 4 := by omega
     rcases hm with rfl | rfl
     · exact ⟨"Other Window", rfl, by decide⟩
     · exact ⟨"Other Window", rfl, by decide⟩)⟩

/-- Helper: `wait_for` returns a result `r` exactly when the poll
stream splits into a prefix of polls that neither matched nor exceeded
the deadline, followed by a poll whose match succeeds with `r`. -/
theorem wait_for_ok_iff (loadImg : String → Img)
    (mm : Img → Img → ℚ × Nat × Nat) (template : Template) (end_time : ℚ) :
    ∀ (polls : List (Img × ℚ)) (r : MatchResult),
      wait_for loadImg mm template end_time polls = some (Except.ok r)
      ↔ ∃ pre x rest, polls = pre ++ x :: rest
          ∧ (∀ y ∈ pre,
              TemplateMatcher.matchTmpl loadImg mm y.1 template = none
              ∧ y.2 ≤ end_time)
          ∧ TemplateMatcher.matchTmpl loadImg mm x.1 template = some r := by
  intro polls
  induction polls with
  | nil =>
    intro r
    constructor
    · intro h
      simp [wait_for] at h
    · rintro ⟨pre, x, rest, heq, -, -⟩
      exact absurd heq (by simp)
  | cons p ps ih =>
    intro r
    obtain ⟨screen, tc⟩ := p
    constructor
    · intro h
      unfold wait_for at h
      cases hm : TemplateMatcher.matchTmpl loadImg mm screen template with
      | some r0 =>
        rw [hm] at h
        simp only [Option.some.injEq, Except.ok.injEq] at h
        subst h
        exact ⟨[], (screen, tc), ps, rfl, by simp, hm⟩
      | none =>
        rw [hm] at h
        by_cases htc : tc > end_time
        · rw [if_pos htc] at h
          simp at h
        · rw [if_neg htc] at h
          obtain ⟨pre, x, rest, heq, hpre, hx⟩ := (ih r).mp h
          refine ⟨(screen, tc) :: pre, x, rest, by rw [heq]; rfl,
            fun y hy => ?_, hx⟩
          rcases List.mem_cons.mp hy with rfl | hy2
          · exact ⟨hm, not_lt.mp htc⟩
          · exact hpre y hy2
    · rintro ⟨pre, x, rest, heq, hpre, hx⟩
      cases pre with
      | nil =>
        simp only [List.nil_append] at heq
        injection heq with h1 h2
        rw [← h1] at hx
        unfold wait_for
        rw [hx]
      | cons q qs =>
        simp only [List.cons_append] at heq
        injection heq with h1 h2
        have hq := hpre q (List.mem_cons_self q qs)
        rw [← h1] at hq
        unfold wait_for
        rw [hq.1, if_neg (not_lt.mpr hq.2)]
        exact (ih r).mpr
          ⟨qs, x, rest, h2, fun y hy => hpre y (List.mem_cons_of_mem q hy), hx⟩

/-- Helper: `wait_for` raises the timeout exactly when the poll stream
splits into a prefix of polls that neither matched nor exceeded the
deadline, followed by a poll that does not match and whose clock reading
exceeds the deadline. -/
theorem wait_for_error_iff (loadImg : String → Img)
    (mm : Img → Img → ℚ × Nat × Nat) (template : Template) (end_time : ℚ) :
    ∀ (polls : List (Img × ℚ)),
      wait_for loadImg mm template end_time polls = some (Except.error ())
      ↔ ∃ pre x rest, polls = pre ++ x :: rest
          ∧ (∀ y ∈ pre,
              TemplateMatcher.matchTmpl loadImg mm y.1 template = none
              ∧ y.2 ≤ end_time)
          ∧ TemplateMatcher.matchTmpl loadImg mm x.1 template = none
          ∧ x.2 > end_time := by
  intro polls
  induction polls with
  | nil =>
    constructor
    · intro h
      simp [wait_for] at h
    · rintro ⟨pre, x, rest, heq, -, -⟩
      exact absurd heq (by simp)
  | cons p ps ih =>
    obtain ⟨screen, tc⟩ := p
    constructor
    · intro h
      unfold wait_for at h
      cases hm : TemplateMatcher.matchTmpl loadImg mm screen template with
      | some r0 =>
        rw [hm] at h
        simp at h
      | none =>
        rw [hm] at h
        by_cases htc : tc > end_time
        · exact ⟨[], (screen, tc), ps, rfl, by simp, hm, htc⟩
        · rw [if_neg htc] at h
          obtain ⟨pre, x, rest, heq, hpre, hx⟩ := ih.mp h
          refine ⟨(screen, tc) :: pre, x, rest, by rw [heq]; rfl,
            fun y hy => ?_, hx⟩
          rcases List.mem_cons.mp hy with rfl | hy2
          · exact ⟨hm, not_lt.mp htc⟩
          · exact hpre y hy2
    · rintro ⟨pre, x, rest, heq, hpre, hx, hxt⟩
      cases pre with
      | nil =>
        simp only [List.nil_append] at heq
        injection heq with h1 h2
        rw [← h1] at hx hxt
        unfold wait_for
        rw [hx, if_pos hxt]
      | cons q qs =>
        simp only [List.cons_append] at heq
        injection heq with h1 h2
        have hq := hpre q (List.mem_cons_self q qs)
        rw [← h1] at hq
        unfold wait_for
        rw [hq.1, if_neg (not_lt.mpr hq.2)]
        exact ih.mpr
          ⟨qs, x, rest, h2, fun y hy => hpre y (List.mem_cons_of_mem q hy),
           hx, hxt⟩

/-- Claim C6: `wait_for` polls capture+match per iteration and (a)
returns the `MatchResult` of the first poll that finds the template,
provided every earlier poll also passed its per-iteration timeout check,
and (b) raises `MatchTimeoutError` if and only if the polls fail to
match all the way up to (and including) the first poll whose clock
reading exceeds the deadline — the timeout check happening once per poll
iteration, after the match attempt. -/
theorem C6_wait_for_timeout (loadImg : String → Img)
    (mm : Img → Img → ℚ × Nat × Nat) (template : Template) (end_time : ℚ)
    (polls : List (Img × ℚ)) :
    (∀ r, wait_for loadImg mm template end_time polls = some (Except.ok r)
      ↔ ∃ pre x rest, polls = pre ++ x :: rest
          ∧ (∀ y ∈ pre,
              TemplateMatcher.matchTmpl loadImg mm y.1 template = none
              ∧ y.2 ≤ end_time)
          ∧ TemplateMatcher.matchTmpl loadImg mm x.1 template = some r)
    ∧ (wait_for loadImg mm template end_time polls = some (Except.error ())
      ↔ ∃ pre x rest, polls = pre ++ x :: rest
          ∧ (∀ y ∈ pre,
              TemplateMatcher.matchTmpl loadImg mm y.1 template = none
              ∧ y.2 ≤ end_time)
          ∧ TemplateMatcher.matchTmpl loadImg mm x.1 template = none
          ∧ x.2 > end_time) :=
  ⟨fun r => wait_for_ok_iff loadImg mm template end_time polls r,
   wait_for_error_iff loadImg mm template end_time polls⟩

/-- Witness for C6: a two-poll stream in which the template (larger than
every captured frame) never matches; the first poll is inside the
deadline, the second past it, so `wait_for` raises the timeout. -/
theorem C6_wait_for_timeout_witness :
    wait_for loadFrame mmConst tmplC 10 [(imgSmall, 5), (imgSmall, 11)]
      = some (Except.error ()) :=
  (C6_wait_for_timeout loadFrame mmConst tmplC 10
      [(imgSmall, 5), (imgSmall, 11)]).2.mpr
    ⟨[(imgSmall, 5)], (imgSmall, 11), [], rfl,
     fun y hy => by
       rcases List.mem_cons.mp hy with rfl | hy2
       · exact ⟨by decide, by norm_num⟩
       · simp at hy2,
     by decide, by norm_num⟩

end Endfield
